import Mathlib

/-! kubectl-podcount: pod classification and aggregation

A shallow embedding of `main.go`.  The program lists the pods of one namespace
or of every namespace, reads four conditions of each pod, and adds the pod to
eight counters held in a `PodInfo` record.

The Kubernetes client calls are external: the answer of each
`Pods(ns).List` call is an input of the model (`PodListResult`), one per
namespace, in the order the namespaces are visited.  A whole run (`main`) takes
the answers of all its external calls (`Cluster`) and gives what is written to
standard output and the exit status (`Run`).

The counters are Go `int` values that start at zero and grow by at most one
per listed pod, so they stay far below the 64-bit limit; they are natural
numbers here.
-/

namespace PodCount

/-! ## Values of `k8s.io/api/core/v1` that the program compares against -/

/-- Go `type PodConditionType string`. -/
abbrev PodConditionType := String

/-- Go `type ConditionStatus string`. -/
abbrev ConditionStatus := String

/-- Go `type PodPhase string`. -/
abbrev PodPhase := String

/-- The constant `corev1.PodReady`. -/
def PodReady : PodConditionType := "Ready"

/-- The constant `corev1.ContainersReady`. -/
def ContainersReady : PodConditionType := "ContainersReady"

/-- The constant `corev1.PodInitialized`. -/
def PodInitialized : PodConditionType := "Initialized"

/-- The constant `corev1.PodScheduled`. -/
def PodScheduled : PodConditionType := "PodScheduled"

/-- The constant `corev1.ConditionTrue`. -/
def ConditionTrue : ConditionStatus := "True"

/-- The constant `corev1.ConditionFalse`. -/
def ConditionFalse : ConditionStatus := "False"

/-- The constant `corev1.ConditionUnknown`. -/
def ConditionUnknown : ConditionStatus := "Unknown"

/-- The constant `corev1.PodPending`. -/
def PodPending : PodPhase := "Pending"

/-- The constant `corev1.PodRunning`. -/
def PodRunning : PodPhase := "Running"

/-- The constant `corev1.PodSucceeded`. -/
def PodSucceeded : PodPhase := "Succeeded"

/-- The constant `corev1.PodFailed`. -/
def PodFailed : PodPhase := "Failed"

/-- The constant `corev1.PodUnknown`. -/
def PodUnknown : PodPhase := "Unknown"

/-- The two fields of `corev1.PodCondition` that the program reads
(`Type` is written `Type_`, the bare word being reserved). -/
structure PodCondition where
  Type_ : PodConditionType
  Status : ConditionStatus
deriving DecidableEq, Repr

/-- The two fields of `corev1.PodStatus` that the program reads. -/
structure PodStatus where
  Phase : PodPhase
  Conditions : List PodCondition
deriving DecidableEq, Repr

/-- A `corev1.Pod`, reduced to its `Status`. -/
structure Pod where
  Status : PodStatus
deriving DecidableEq, Repr

/-! ## The counters (`main.go` lines 17-26) -/

/-- The struct `PodInfo`. -/
structure PodInfo where
  pod_total_count : Nat
  pod_pending_count : Nat
  pod_running_count : Nat
  pod_ready_count : Nat
  pod_running_not_ready_count : Nat
  pod_unscheduled_count : Nat
  pod_uninitialized_count : Nat
  pod_containers_not_ready_count : Nat
deriving DecidableEq, Repr

/-- The value of `&PodInfo{}` (line 82): every counter is zero. -/
def PodInfo.zero : PodInfo := ⟨0, 0, 0, 0, 0, 0, 0, 0⟩

/-- Counter-by-counter sum of two records. -/
def PodInfo.add (a b : PodInfo) : PodInfo where
  pod_total_count := a.pod_total_count + b.pod_total_count
  pod_pending_count := a.pod_pending_count + b.pod_pending_count
  pod_running_count := a.pod_running_count + b.pod_running_count
  pod_ready_count := a.pod_ready_count + b.pod_ready_count
  pod_running_not_ready_count := a.pod_running_not_ready_count + b.pod_running_not_ready_count
  pod_unscheduled_count := a.pod_unscheduled_count + b.pod_unscheduled_count
  pod_uninitialized_count := a.pod_uninitialized_count + b.pod_uninitialized_count
  pod_containers_not_ready_count :=
    a.pod_containers_not_ready_count + b.pod_containers_not_ready_count

/-! ## Reading the conditions of one pod (lines 95-114) -/

/-- The four local variables declared at lines 95-100. -/
structure CondVars where
  podReady : Bool
  containersReady : Bool
  podInitialized : Bool
  podScheduled : Bool
deriving DecidableEq, Repr

/-- The zero values the four variables have when a pod is entered. -/
def CondVars.init : CondVars := ⟨false, false, false, false⟩

/-- One pass of the loop body at lines 103-113: the `switch` on
`condition.Type`, cases tried in source order, no default case. -/
def readCondition (v : CondVars) (condition : PodCondition) : CondVars :=
  if condition.Type_ = PodReady then
    { v with podReady := decide (condition.Status = ConditionTrue) }
  else if condition.Type_ = ContainersReady then
    { v with containersReady := decide (condition.Status = ConditionTrue) }
  else if condition.Type_ = PodInitialized then
    { v with podInitialized := decide (condition.Status = ConditionTrue) }
  else if condition.Type_ = PodScheduled then
    { v with podScheduled := decide (condition.Status = ConditionTrue) }
  else v

/-- The loop over `pod.Status.Conditions` (lines 102-114), front to back. -/
def readConditions (conditions : List PodCondition) : CondVars :=
  conditions.foldl readCondition CondVars.init

/-! ## Counting one pod (lines 93-142) -/

/-- The `switch pod.Status.Phase` of lines 122-128. -/
def countPhase (podInfo : PodInfo) (phase : PodPhase) : PodInfo :=
  if phase = PodRunning then
    { podInfo with
      pod_running_count := podInfo.pod_running_count + 1
      pod_running_not_ready_count := podInfo.pod_running_not_ready_count + 1 }
  else if phase = PodPending then
    { podInfo with pod_pending_count := podInfo.pod_pending_count + 1 }
  else podInfo

/-- The body of the inner loop for one pod (lines 93-142); each `continue`
ends the body with the counters as they are at that point. -/
def classifyPod (podInfo : PodInfo) (pod : Pod) : PodInfo :=
  let v := readConditions pod.Status.Conditions
  if v.podReady then
    { podInfo with
      pod_ready_count := podInfo.pod_ready_count + 1
      pod_running_count := podInfo.pod_running_count + 1 }
  else
    let podInfo := countPhase podInfo pod.Status.Phase
    if !v.podScheduled then
      { podInfo with pod_unscheduled_count := podInfo.pod_unscheduled_count + 1 }
    else if !v.podInitialized then
      { podInfo with pod_uninitialized_count := podInfo.pod_uninitialized_count + 1 }
    else if !v.containersReady then
      { podInfo with
        pod_containers_not_ready_count := podInfo.pod_containers_not_ready_count + 1 }
    else podInfo

/-- The inner loop `for i := range pods.Items` (lines 92-143). -/
def classifyPods (podInfo : PodInfo) (items : List Pod) : PodInfo :=
  items.foldl classifyPod podInfo

/-! ## Counting the namespaces (lines 84-144) -/

/-- Lines 91-143 for one fetched pod list: the total grows by `len(pods.Items)`,
then every pod is counted. -/
def countPodList (podInfo : PodInfo) (items : List Pod) : PodInfo :=
  classifyPods
    { podInfo with pod_total_count := podInfo.pod_total_count + items.length } items

/-- What one `Pods(ns).List` call answers: `pods.Items`, or the error. -/
abbrev PodListResult := Except String (List Pod)

/-- The body of the outer loop (lines 85-143) on the answer of the list call:
on an error a line is printed and the loop goes on (`continue`, lines 87-90),
no counter being touched. -/
def countNamespace (podInfo : PodInfo) (result : PodListResult) : PodInfo :=
  match result with
  | .error _ => podInfo
  | .ok items => countPodList podInfo items

/-- The outer loop `for i := range namespaces` (lines 84-144), on the answers
of the list calls in the order the namespaces are visited. -/
def countNamespaces (podInfo : PodInfo) (results : List PodListResult) : PodInfo :=
  results.foldl countNamespace podInfo

/-- Whether a list call answered with pods. -/
def fetched : PodListResult → Bool
  | .ok _ => true
  | .error _ => false

/-! ## The classifier and the snapshot as the specification words them

The definitions of this section follow the text of the specification
(its sections 3 and 4.1), not the code; they are what the code is compared
with. -/

namespace Spec

/-- The eight categories of the totals record. -/
inductive Category where
  | total
  | pending
  | running
  | ready
  | running_not_ready
  | unscheduled
  | uninitialized
  | containers_not_ready
deriving DecidableEq, Repr

/-- The four condition kinds of a snapshot. -/
inductive ConditionKind where
  | scheduled
  | initialized
  | containersReady
  | ready
deriving DecidableEq, Repr

/-- A pod snapshot: a phase and a mapping from condition kind to boolean
status, a kind possibly absent from the mapping. -/
structure PodSnapshot where
  phase : PodPhase
  conditions : ConditionKind → Option Bool

/-- Step 1 of the algorithm: the boolean of a kind, `false` when absent. -/
def PodSnapshot.read (s : PodSnapshot) (kind : ConditionKind) : Bool :=
  (s.conditions kind).getD false

/-- Step 3 of the algorithm: the tags of the phase branch. -/
def phaseTags (phase : PodPhase) : List Category :=
  if phase = PodRunning then [Category.running, Category.running_not_ready]
  else if phase = PodPending then [Category.pending]
  else []

/-- Step 4 of the algorithm: at most one tag, first match wins. -/
def blockingTags (scheduled initialized containersReady : Bool) : List Category :=
  if scheduled = false then [Category.unscheduled]
  else if initialized = false then [Category.uninitialized]
  else if containersReady = false then [Category.containers_not_ready]
  else []

/-- The contract `classify(snapshot)` of section 4.1, steps 1 to 4. -/
def classify (s : PodSnapshot) : List Category :=
  if s.read ConditionKind.ready = true then [Category.ready, Category.running]
  else
    phaseTags s.phase ++
      blockingTags (s.read ConditionKind.scheduled) (s.read ConditionKind.initialized)
        (s.read ConditionKind.containersReady)

end Spec

/-- The last entry of a condition list that has the given kind, if any. -/
def lastOfKind (kind : PodConditionType) (conditions : List PodCondition) :
    Option PodCondition :=
  (conditions.filter (fun c => decide (c.Type_ = kind))).getLast?

/-- The name under which a condition kind of the specification appears in
the `Type` field of a pod condition. -/
def kindName : Spec.ConditionKind → PodConditionType
  | Spec.ConditionKind.scheduled => PodScheduled
  | Spec.ConditionKind.initialized => PodInitialized
  | Spec.ConditionKind.containersReady => ContainersReady
  | Spec.ConditionKind.ready => PodReady

/-- The snapshot that a pod of the API stands for: its phase, and for each
kind the status of the last entry of that kind (true exactly for `True`), the
kind being absent when the pod has no entry of it. -/
def snapshot (pod : Pod) : Spec.PodSnapshot where
  phase := pod.Status.Phase
  conditions := fun kind =>
    (lastOfKind (kindName kind) pod.Status.Conditions).map
      (fun c => decide (c.Status = ConditionTrue))

/-- The number of pods of a list whose classification contains a category. -/
def tagCount (tag : Spec.Category) (items : List Pod) : Nat :=
  items.countP (fun pod => decide (tag ∈ Spec.classify (snapshot pod)))

/-- Two answers of a list call that hold the same pods, possibly in another
order (an error being the same error). -/
inductive PodsPermuted : PodListResult → PodListResult → Prop where
  | ok {a b : List Pod} (h : a.Perm b) : PodsPermuted (Except.ok a) (Except.ok b)
  | error (e : String) : PodsPermuted (Except.error e) (Except.error e)

/-! ## The report (`main.go` lines 28-37) -/

/-- What the verb `%d` prints for a counter: its decimal digits. -/
def fmtInt (n : Nat) : String :=
  Nat.repr n

/-- The method `output`: eight `Printf` calls, each writing one chunk that
ends with a newline; the chunks are listed in the order they are written. -/
def output (pi : PodInfo) : List String :=
  [ "pod_total_count:" ++ fmtInt pi.pod_total_count ++ "\n",
    "pod_pending_count:" ++ fmtInt pi.pod_pending_count ++ "\n",
    "pod_running_count:" ++ fmtInt pi.pod_running_count ++ "\n",
    "pod_ready_count:" ++ fmtInt pi.pod_ready_count ++ "\n",
    "pod_running_not_ready_count:" ++ fmtInt pi.pod_running_not_ready_count ++ "\n",
    "pod_unscheduled_count:" ++ fmtInt pi.pod_unscheduled_count ++ "\n",
    "pod_uninitialized_count:" ++ fmtInt pi.pod_uninitialized_count ++ "\n",
    "pod_containers_not_ready_count:" ++ fmtInt pi.pod_containers_not_ready_count ++ "\n" ]

/-! ## A whole run (`main.go` lines 39-145) -/

/-- The answers of the external calls of one run; an error is held as the
text that `%v` prints for it. -/
structure Cluster where
  /-- The answer of `clientcmd.BuildConfigFromFlags` (line 49). -/
  buildConfig : Except String Unit
  /-- The answer of `kubernetes.NewForConfig` (line 55). -/
  newForConfig : Except String Unit
  /-- The answer of `Namespaces().List` (line 63): the names of the items. -/
  listNamespaces : Except String (List String)
  /-- The answer of `Namespaces().Get` (line 73): the name of the namespace. -/
  getNamespace : String → Except String String
  /-- The answer of `Pods(ns).List` (line 86). -/
  listPods : String → PodListResult

/-- What a run leaves behind: the chunks written to standard output, in
order, and the exit status of the process. -/
structure Run where
  stdout : List String
  exitCode : Nat
deriving DecidableEq, Repr

/-- Lines 49-80, with the value of the flag `-n`: the slice `namespaces`, or
the line that is printed right before `os.Exit(1)`.  The client is built first
(lines 49-59); with an empty flag every namespace is listed (lines 63-71),
otherwise the named one is fetched (lines 73-79). -/
def resolveNamespaces (namespace_ : String) (env : Cluster) : Except String (List String) :=
  match env.buildConfig with
  | .error err => .error ("build config from flags failed, err: " ++ err ++ "\n")
  | .ok _ =>
    match env.newForConfig with
    | .error err => .error ("new kubeclient for config failed, err: " ++ err ++ "\n")
    | .ok _ =>
      if namespace_ = "" then
        match env.listNamespaces with
        | .error err => .error ("list namespaces failed, err: " ++ err ++ "\n")
        | .ok names => .ok names
      else
        match env.getNamespace namespace_ with
        | .error err =>
          .error ("get namespace " ++ namespace_ ++ " failed, err: " ++ err ++ "\n")
        | .ok name => .ok [name]

/-- The line printed when the pods of a namespace cannot be listed (line 88). -/
def listPodsFailed (ns err : String) : String :=
  "list pods in namespace " ++ ns ++ " failed, err: " ++ err ++ "\n"

/-- The body of the outer loop (lines 85-143) on the counters and on what has
been written so far. -/
def processNamespace (listPods : String → PodListResult)
    (state : PodInfo × List String) (ns : String) : PodInfo × List String :=
  match listPods ns with
  | .error err => (state.1, state.2 ++ [listPodsFailed ns err])
  | .ok items => (countPodList state.1 items, state.2)

/-- The outer loop (lines 84-144) on the counters and on what has been
written so far. -/
def processNamespaces (listPods : String → PodListResult)
    (state : PodInfo × List String) (namespaces : List String) : PodInfo × List String :=
  namespaces.foldl (processNamespace listPods) state

/-- The function `main`, after the flags are parsed.  A failure before line 82
prints one line and exits with status 1, no deferred call being registered yet.
Otherwise the counters start at zero, `output` is deferred on the pointer to
them (line 83), the namespaces are processed, and the deferred call runs when
`main` returns, reading the counters as they are then. -/
def main (namespace_ : String) (env : Cluster) : Run :=
  match resolveNamespaces namespace_ env with
  | .error line => ⟨[line], 1⟩
  | .ok namespaces =>
    let state := processNamespaces env.listPods (PodInfo.zero, []) namespaces
    ⟨state.2 ++ output state.1, 0⟩

/-- The lines that the failed list calls of a run print, in order. -/
def fetchErrorLines (listPods : String → PodListResult) (namespaces : List String) :
    List String :=
  namespaces.filterMap (fun ns =>
    match listPods ns with
    | .error err => some (listPodsFailed ns err)
    | .ok _ => none)

/-! ## The report as the specification words it -/

namespace Spec

/-- The name of a category, as section 3 of the specification lists them. -/
def Category.name : Category → String
  | Category.total => "total"
  | Category.pending => "pending"
  | Category.running => "running"
  | Category.ready => "ready"
  | Category.running_not_ready => "running_not_ready"
  | Category.unscheduled => "unscheduled"
  | Category.uninitialized => "uninitialized"
  | Category.containers_not_ready => "containers_not_ready"

/-- The fixed order of the report. -/
def categories : List Category :=
  [Category.total, Category.pending, Category.running, Category.ready,
   Category.running_not_ready, Category.unscheduled, Category.uninitialized,
   Category.containers_not_ready]

/-- A report line: the category name, a colon, the count in decimal. -/
def reportLine (category : Category) (count : Nat) : String :=
  category.name ++ ":" ++ Nat.repr count

end Spec

/-- The counter of a category. -/
def PodInfo.count (pi : PodInfo) : Spec.Category → Nat
  | Spec.Category.total => pi.pod_total_count
  | Spec.Category.pending => pi.pod_pending_count
  | Spec.Category.running => pi.pod_running_count
  | Spec.Category.ready => pi.pod_ready_count
  | Spec.Category.running_not_ready => pi.pod_running_not_ready_count
  | Spec.Category.unscheduled => pi.pod_unscheduled_count
  | Spec.Category.uninitialized => pi.pod_uninitialized_count
  | Spec.Category.containers_not_ready => pi.pod_containers_not_ready_count

/-! ## Sample inputs -/

/-- A condition entry. -/
def cond (type_ : PodConditionType) (status : ConditionStatus) : PodCondition :=
  ⟨type_, status⟩

/-- A pod with the given phase and conditions. -/
def mkPod (phase : PodPhase) (conditions : List PodCondition) : Pod :=
  ⟨⟨phase, conditions⟩⟩

/-- Scenario 1: a running pod with all four conditions true. -/
def healthyPod : Pod :=
  mkPod PodRunning
    [cond PodInitialized ConditionTrue, cond PodReady ConditionTrue,
     cond ContainersReady ConditionTrue, cond PodScheduled ConditionTrue]

/-- Scenario 2: a pending pod whose `PodScheduled` condition is false. -/
def unschedulablePod : Pod :=
  mkPod PodPending [cond PodScheduled ConditionFalse]

/-- Scenario 3: a running pod whose containers are not ready. -/
def crashingPod : Pod :=
  mkPod PodRunning
    [cond PodInitialized ConditionTrue, cond PodReady ConditionFalse,
     cond ContainersReady ConditionFalse, cond PodScheduled ConditionTrue]

/-- A pending pod that waits for its init containers. -/
def initializingPod : Pod :=
  mkPod PodPending
    [cond PodInitialized ConditionFalse, cond PodReady ConditionFalse,
     cond ContainersReady ConditionFalse, cond PodScheduled ConditionTrue]

/-- A pending pod that is scheduled, initialized and whose containers are
ready, while its `PodReady` condition is false. -/
def almostReadyPod : Pod :=
  mkPod PodPending
    [cond PodScheduled ConditionTrue, cond PodInitialized ConditionTrue,
     cond ContainersReady ConditionTrue, cond PodReady ConditionFalse]

/-- A pod that reads ready while its `PodScheduled` condition is false. -/
def readyUnscheduledPod : Pod :=
  mkPod PodRunning [cond PodScheduled ConditionFalse, cond PodReady ConditionTrue]

/-- A pod that reads ready, is scheduled, and whose `Initialized` condition
is false. -/
def readyUninitializedPod : Pod :=
  mkPod PodRunning
    [cond PodScheduled ConditionTrue, cond PodInitialized ConditionFalse,
     cond PodReady ConditionTrue]

/-- Scenario 5: two namespaces, the first with one healthy and two
unschedulable pods, the second one failing to list. -/
def sampleCluster : Cluster where
  buildConfig := Except.ok ()
  newForConfig := Except.ok ()
  listNamespaces := Except.ok ["default", "kube-system"]
  getNamespace := fun name =>
    if name = "default" then Except.ok name else Except.error "not found"
  listPods := fun ns =>
    if ns = "default" then Except.ok [healthyPod, unschedulablePod, unschedulablePod]
    else Except.error "timeout"

/-- Counters with eight different values. -/
def samplePodInfo : PodInfo := ⟨12, 3, 7, 5, 2, 1, 4, 10⟩

end PodCount

namespace PodCount

/-! ## Arithmetic of the counter record -/

theorem PodInfo.add_zero (a : PodInfo) : a.add PodInfo.zero = a := by
  cases a
  simp [PodInfo.add, PodInfo.zero]

theorem PodInfo.zero_add (a : PodInfo) : PodInfo.zero.add a = a := by
  cases a
  simp [PodInfo.add, PodInfo.zero]

theorem PodInfo.add_assoc (a b c : PodInfo) : (a.add b).add c = a.add (b.add c) := by
  simp [PodInfo.add, Nat.add_assoc]

theorem PodInfo.add_right_comm (a b c : PodInfo) : (a.add b).add c = (a.add c).add b := by
  simp [PodInfo.add, Nat.add_right_comm]

/-! ## Each loop adds to the counters an amount that depends on its input only -/

theorem classifyPod_add (podInfo : PodInfo) (pod : Pod) :
    classifyPod podInfo pod = podInfo.add (classifyPod PodInfo.zero pod) := by
  cases podInfo
  unfold classifyPod countPhase
  simp only []
  split_ifs <;> simp [PodInfo.add, PodInfo.zero]

theorem classifyPods_add (podInfo : PodInfo) (items : List Pod) :
    classifyPods podInfo items = podInfo.add (classifyPods PodInfo.zero items) := by
  induction items generalizing podInfo with
  | nil => simp [classifyPods, PodInfo.add_zero]
  | cons pod rest ih =>
    have step : ∀ q : PodInfo,
        classifyPods q (pod :: rest) = classifyPods (classifyPod q pod) rest := fun _ => rfl
    rw [step, step, ih (classifyPod podInfo pod), ih (classifyPod PodInfo.zero pod),
      classifyPod_add podInfo pod, PodInfo.add_assoc]

theorem countPodList_add (podInfo : PodInfo) (items : List Pod) :
    countPodList podInfo items = podInfo.add (countPodList PodInfo.zero items) := by
  have grow : ∀ q : PodInfo,
      ({ q with pod_total_count := q.pod_total_count + items.length } : PodInfo)
        = q.add ⟨items.length, 0, 0, 0, 0, 0, 0, 0⟩ := by
    intro q
    cases q
    simp [PodInfo.add]
  unfold countPodList
  rw [grow podInfo, grow PodInfo.zero, classifyPods_add (podInfo.add _),
    classifyPods_add (PodInfo.zero.add _), PodInfo.zero_add, PodInfo.add_assoc]

theorem countNamespace_add (podInfo : PodInfo) (result : PodListResult) :
    countNamespace podInfo result = podInfo.add (countNamespace PodInfo.zero result) := by
  cases result with
  | error e => simp [countNamespace, PodInfo.add_zero]
  | ok items => simpa [countNamespace] using countPodList_add podInfo items

theorem countNamespaces_add (podInfo : PodInfo) (results : List PodListResult) :
    countNamespaces podInfo results
      = podInfo.add (countNamespaces PodInfo.zero results) := by
  induction results generalizing podInfo with
  | nil => simp [countNamespaces, PodInfo.add_zero]
  | cons r rest ih =>
    have step : ∀ q : PodInfo,
        countNamespaces q (r :: rest) = countNamespaces (countNamespace q r) rest :=
      fun _ => rfl
    rw [step, step, ih (countNamespace podInfo r), ih (countNamespace PodInfo.zero r),
      countNamespace_add podInfo r, PodInfo.add_assoc]

theorem classifyPod_right_comm (podInfo : PodInfo) (p q : Pod) :
    classifyPod (classifyPod podInfo p) q = classifyPod (classifyPod podInfo q) p := by
  rw [classifyPod_add (classifyPod podInfo p) q, classifyPod_add podInfo p,
    classifyPod_add (classifyPod podInfo q) p, classifyPod_add podInfo q,
    PodInfo.add_right_comm]

theorem countNamespace_right_comm (podInfo : PodInfo) (r s : PodListResult) :
    countNamespace (countNamespace podInfo r) s
      = countNamespace (countNamespace podInfo s) r := by
  rw [countNamespace_add (countNamespace podInfo r) s, countNamespace_add podInfo r,
    countNamespace_add (countNamespace podInfo s) r, countNamespace_add podInfo s,
    PodInfo.add_right_comm]

theorem countPodList_perm (podInfo : PodInfo) {a b : List Pod} (h : a.Perm b) :
    countPodList podInfo a = countPodList podInfo b := by
  unfold countPodList classifyPods
  rw [h.length_eq]
  exact h.foldl_eq' (fun x _ y _ z => classifyPod_right_comm z x y) _

theorem countNamespace_permuted (podInfo : PodInfo) {r s : PodListResult}
    (h : PodsPermuted r s) : countNamespace podInfo r = countNamespace podInfo s := by
  cases h with
  | ok hp => exact countPodList_perm podInfo hp
  | error e => rfl

theorem countNamespaces_permuted (podInfo : PodInfo) {results shuffled : List PodListResult}
    (h : List.Forall₂ PodsPermuted results shuffled) :
    countNamespaces podInfo results = countNamespaces podInfo shuffled := by
  induction h generalizing podInfo with
  | nil => rfl
  | cons hrs _ ih =>
    simp only [countNamespaces, List.foldl_cons] at ih ⊢
    rw [countNamespace_permuted podInfo hrs]
    exact ih _

/-! ## What the condition loop reads -/

theorem lastOfKind_cons (kind : PodConditionType) (c : PodCondition)
    (cs : List PodCondition) :
    lastOfKind kind (c :: cs)
      = if c.Type_ = kind then some ((lastOfKind kind cs).getD c) else lastOfKind kind cs := by
  unfold lastOfKind
  by_cases h : c.Type_ = kind <;> simp [List.filter_cons, h, List.getLast?_cons]

/-- A variable that one pass of the loop sets from the entries of one kind and
otherwise keeps ends up holding the status of the last entry of that kind. -/
theorem foldl_readCondition_field (proj : CondVars → Bool) (kind : PodConditionType)
    (hstep : ∀ v c, proj (readCondition v c)
      = if c.Type_ = kind then decide (c.Status = ConditionTrue) else proj v)
    (v : CondVars) (cs : List PodCondition) :
    proj (cs.foldl readCondition v)
      = ((lastOfKind kind cs).map (fun c => decide (c.Status = ConditionTrue))).getD
          (proj v) := by
  induction cs generalizing v with
  | nil => simp [lastOfKind]
  | cons c rest ih =>
    rw [List.foldl_cons, ih, lastOfKind_cons, hstep]
    by_cases h : c.Type_ = kind
    · cases hl : lastOfKind kind rest <;> simp [h]
    · simp [h]

theorem readCondition_podReady (v : CondVars) (c : PodCondition) :
    (readCondition v c).podReady
      = if c.Type_ = PodReady then decide (c.Status = ConditionTrue) else v.podReady := by
  unfold readCondition
  split_ifs <;> rfl

theorem readCondition_containersReady (v : CondVars) (c : PodCondition) :
    (readCondition v c).containersReady
      = if c.Type_ = ContainersReady then decide (c.Status = ConditionTrue)
        else v.containersReady := by
  unfold readCondition
  split_ifs <;> simp_all [PodReady, ContainersReady, PodInitialized, PodScheduled]

theorem readCondition_podInitialized (v : CondVars) (c : PodCondition) :
    (readCondition v c).podInitialized
      = if c.Type_ = PodInitialized then decide (c.Status = ConditionTrue)
        else v.podInitialized := by
  unfold readCondition
  split_ifs <;> simp_all [PodReady, ContainersReady, PodInitialized, PodScheduled]

theorem readCondition_podScheduled (v : CondVars) (c : PodCondition) :
    (readCondition v c).podScheduled
      = if c.Type_ = PodScheduled then decide (c.Status = ConditionTrue)
        else v.podScheduled := by
  unfold readCondition
  split_ifs <;> simp_all [PodReady, ContainersReady, PodInitialized, PodScheduled]

theorem readConditions_podReady (cs : List PodCondition) :
    (readConditions cs).podReady
      = ((lastOfKind PodReady cs).map (fun c => decide (c.Status = ConditionTrue))).getD
          false :=
  foldl_readCondition_field CondVars.podReady PodReady readCondition_podReady
    CondVars.init cs

theorem readConditions_containersReady (cs : List PodCondition) :
    (readConditions cs).containersReady
      = ((lastOfKind ContainersReady cs).map
          (fun c => decide (c.Status = ConditionTrue))).getD false :=
  foldl_readCondition_field CondVars.containersReady ContainersReady
    readCondition_containersReady CondVars.init cs

theorem readConditions_podInitialized (cs : List PodCondition) :
    (readConditions cs).podInitialized
      = ((lastOfKind PodInitialized cs).map
          (fun c => decide (c.Status = ConditionTrue))).getD false :=
  foldl_readCondition_field CondVars.podInitialized PodInitialized
    readCondition_podInitialized CondVars.init cs

theorem readConditions_podScheduled (cs : List PodCondition) :
    (readConditions cs).podScheduled
      = ((lastOfKind PodScheduled cs).map
          (fun c => decide (c.Status = ConditionTrue))).getD false :=
  foldl_readCondition_field CondVars.podScheduled PodScheduled
    readCondition_podScheduled CondVars.init cs

/-- The status of the last entry of a kind reads true exactly when there is
such an entry and its status is `True`. -/
theorem lastStatus_true_iff (kind : PodConditionType) (cs : List PodCondition) :
    ((lastOfKind kind cs).map (fun c => decide (c.Status = ConditionTrue))).getD false = true
      ↔ ∃ c, lastOfKind kind cs = some c ∧ c.Status = ConditionTrue := by
  cases lastOfKind kind cs <;> simp

/-! ## The total counter -/

theorem classifyPod_total (podInfo : PodInfo) (pod : Pod) :
    (classifyPod podInfo pod).pod_total_count = podInfo.pod_total_count := by
  unfold classifyPod countPhase
  simp only []
  split_ifs <;> rfl

theorem classifyPods_total (podInfo : PodInfo) (items : List Pod) :
    (classifyPods podInfo items).pod_total_count = podInfo.pod_total_count := by
  induction items generalizing podInfo with
  | nil => rfl
  | cons pod rest ih =>
    have step : classifyPods podInfo (pod :: rest)
        = classifyPods (classifyPod podInfo pod) rest := rfl
    rw [step, ih, classifyPod_total]

theorem countPodList_total (podInfo : PodInfo) (items : List Pod) :
    (countPodList podInfo items).pod_total_count
      = podInfo.pod_total_count + items.length := by
  unfold countPodList
  rw [classifyPods_total]

theorem countNamespaces_ok_total (podInfo : PodInfo) (namespaces : List (List Pod)) :
    (countNamespaces podInfo (namespaces.map Except.ok)).pod_total_count
      = podInfo.pod_total_count + (namespaces.map List.length).sum := by
  induction namespaces generalizing podInfo with
  | nil => simp [countNamespaces]
  | cons items rest ih =>
    have step : countNamespaces podInfo ((items :: rest).map Except.ok)
        = countNamespaces (countPodList podInfo items) (rest.map Except.ok) := rfl
    rw [step, ih, countPodList_total, List.map_cons, List.sum_cons, Nat.add_assoc]

/-! ## The code against the classifier of the specification -/

theorem snapshot_read_ready (pod : Pod) :
    (snapshot pod).read Spec.ConditionKind.ready
      = (readConditions pod.Status.Conditions).podReady := by
  rw [readConditions_podReady]
  rfl

theorem snapshot_read_containersReady (pod : Pod) :
    (snapshot pod).read Spec.ConditionKind.containersReady
      = (readConditions pod.Status.Conditions).containersReady := by
  rw [readConditions_containersReady]
  rfl

theorem snapshot_read_initialized (pod : Pod) :
    (snapshot pod).read Spec.ConditionKind.initialized
      = (readConditions pod.Status.Conditions).podInitialized := by
  rw [readConditions_podInitialized]
  rfl

theorem snapshot_read_scheduled (pod : Pod) :
    (snapshot pod).read Spec.ConditionKind.scheduled
      = (readConditions pod.Status.Conditions).podScheduled := by
  rw [readConditions_podScheduled]
  rfl

theorem tagCount_cons (tag : Spec.Category) (pod : Pod) (rest : List Pod) :
    tagCount tag (pod :: rest) = tagCount tag [pod] + tagCount tag rest := by
  unfold tagCount
  simp [List.countP_cons, Nat.add_comm]

/-- One pod adds one to each counter whose category its classification holds. -/
theorem classifyPod_eq_tags (podInfo : PodInfo) (pod : Pod) :
    classifyPod podInfo pod =
      { pod_total_count := podInfo.pod_total_count
        pod_pending_count :=
          podInfo.pod_pending_count + tagCount Spec.Category.pending [pod]
        pod_running_count :=
          podInfo.pod_running_count + tagCount Spec.Category.running [pod]
        pod_ready_count := podInfo.pod_ready_count + tagCount Spec.Category.ready [pod]
        pod_running_not_ready_count :=
          podInfo.pod_running_not_ready_count
            + tagCount Spec.Category.running_not_ready [pod]
        pod_unscheduled_count :=
          podInfo.pod_unscheduled_count + tagCount Spec.Category.unscheduled [pod]
        pod_uninitialized_count :=
          podInfo.pod_uninitialized_count + tagCount Spec.Category.uninitialized [pod]
        pod_containers_not_ready_count :=
          podInfo.pod_containers_not_ready_count
            + tagCount Spec.Category.containers_not_ready [pod] } := by
  have hphase : (snapshot pod).phase = pod.Status.Phase := rfl
  have distinct : ¬ PodPending = PodRunning := by decide
  have single : ∀ tag : Spec.Category, tagCount tag [pod]
      = if tag ∈ Spec.classify (snapshot pod) then 1 else 0 := by
    intro tag
    simp [tagCount, List.countP_cons]
  have hcases : pod.Status.Phase = PodRunning ∨
      (pod.Status.Phase ≠ PodRunning ∧ pod.Status.Phase = PodPending) ∨
      (pod.Status.Phase ≠ PodRunning ∧ pod.Status.Phase ≠ PodPending) := by
    by_cases h1 : pod.Status.Phase = PodRunning
    · exact Or.inl h1
    · by_cases h2 : pod.Status.Phase = PodPending
      · exact Or.inr (Or.inl ⟨h1, h2⟩)
      · exact Or.inr (Or.inr ⟨h1, h2⟩)
  cases podInfo
  simp only [single]
  unfold classifyPod countPhase Spec.classify Spec.phaseTags Spec.blockingTags
  simp only [snapshot_read_ready, snapshot_read_containersReady, snapshot_read_initialized,
    snapshot_read_scheduled, hphase]
  generalize readConditions pod.Status.Conditions = v
  rcases v with ⟨_ | _, _ | _, _ | _, _ | _⟩ <;>
    rcases hcases with h | ⟨h1, h2⟩ | ⟨h1, h2⟩ <;>
    simp [*]

theorem classifyPods_eq_tags (podInfo : PodInfo) (items : List Pod) :
    classifyPods podInfo items =
      { pod_total_count := podInfo.pod_total_count
        pod_pending_count :=
          podInfo.pod_pending_count + tagCount Spec.Category.pending items
        pod_running_count :=
          podInfo.pod_running_count + tagCount Spec.Category.running items
        pod_ready_count := podInfo.pod_ready_count + tagCount Spec.Category.ready items
        pod_running_not_ready_count :=
          podInfo.pod_running_not_ready_count
            + tagCount Spec.Category.running_not_ready items
        pod_unscheduled_count :=
          podInfo.pod_unscheduled_count + tagCount Spec.Category.unscheduled items
        pod_uninitialized_count :=
          podInfo.pod_uninitialized_count + tagCount Spec.Category.uninitialized items
        pod_containers_not_ready_count :=
          podInfo.pod_containers_not_ready_count
            + tagCount Spec.Category.containers_not_ready items } := by
  induction items generalizing podInfo with
  | nil => cases podInfo; simp [classifyPods, tagCount]
  | cons pod rest ih =>
    have step : classifyPods podInfo (pod :: rest)
        = classifyPods (classifyPod podInfo pod) rest := rfl
    rw [step, ih, classifyPod_eq_tags]
    simp only [tagCount_cons _ pod rest, Nat.add_assoc]

/-! ## The claims -/

/-- C1. A pod whose `PodReady` condition reads true adds one to the ready
counter and one to the running counter and changes no other counter, whatever
its phase and its other conditions. -/
theorem ready_pod_counts_ready_and_running (podInfo : PodInfo) (pod : Pod)
    (hready : (readConditions pod.Status.Conditions).podReady = true) :
    classifyPod podInfo pod =
      { podInfo with
        pod_ready_count := podInfo.pod_ready_count + 1
        pod_running_count := podInfo.pod_running_count + 1 } := by
  unfold classifyPod
  simp [hready]

theorem ready_pod_counts_ready_and_running_witness :
    (readConditions healthyPod.Status.Conditions).podReady = true ∧
      classifyPod PodInfo.zero healthyPod = ⟨0, 0, 1, 1, 0, 0, 0, 0⟩ :=
  ⟨by decide, ready_pod_counts_ready_and_running PodInfo.zero healthyPod (by decide)⟩

/-- C2, as stated, fails: the pod `readyUnscheduledPod` reads scheduled = false,
yet counting it leaves the unscheduled counter at zero (it reads ready, so only
ready and running grow). -/
theorem ready_pod_is_not_counted_unscheduled :
    (readConditions readyUnscheduledPod.Status.Conditions).podScheduled = false ∧
      classifyPod PodInfo.zero readyUnscheduledPod = ⟨0, 0, 1, 1, 0, 0, 0, 0⟩ := by
  decide

/-- C2, amended. A pod that reads not scheduled adds nothing to the
uninitialized and containers-not-ready counters, and adds to the unscheduled
counter one when it reads not ready and nothing when it reads ready. -/
theorem unscheduled_pod_counted_once (podInfo : PodInfo) (pod : Pod)
    (hsched : (readConditions pod.Status.Conditions).podScheduled = false) :
    (classifyPod podInfo pod).pod_unscheduled_count
      = podInfo.pod_unscheduled_count
        + (if (readConditions pod.Status.Conditions).podReady = true then 0 else 1) ∧
    (classifyPod podInfo pod).pod_uninitialized_count = podInfo.pod_uninitialized_count ∧
    (classifyPod podInfo pod).pod_containers_not_ready_count
      = podInfo.pod_containers_not_ready_count := by
  unfold classifyPod countPhase
  simp only [hsched]
  split_ifs <;> simp_all

theorem unscheduled_pod_counted_once_witness :
    ((classifyPod PodInfo.zero unschedulablePod).pod_unscheduled_count = 1 ∧
      (classifyPod PodInfo.zero unschedulablePod).pod_uninitialized_count = 0 ∧
      (classifyPod PodInfo.zero unschedulablePod).pod_containers_not_ready_count = 0) ∧
    ((classifyPod PodInfo.zero readyUnscheduledPod).pod_unscheduled_count = 0 ∧
      (classifyPod PodInfo.zero readyUnscheduledPod).pod_uninitialized_count = 0 ∧
      (classifyPod PodInfo.zero readyUnscheduledPod).pod_containers_not_ready_count = 0) :=
  ⟨unscheduled_pod_counted_once PodInfo.zero unschedulablePod (by decide),
    unscheduled_pod_counted_once PodInfo.zero readyUnscheduledPod (by decide)⟩

/-- C3, as stated, fails: the pod `readyUninitializedPod` reads scheduled = true
and initialized = false, yet counting it leaves the uninitialized counter at
zero (it reads ready, so only ready and running grow). -/
theorem ready_pod_is_not_counted_uninitialized :
    (readConditions readyUninitializedPod.Status.Conditions).podScheduled = true ∧
    (readConditions readyUninitializedPod.Status.Conditions).podInitialized = false ∧
      classifyPod PodInfo.zero readyUninitializedPod = ⟨0, 0, 1, 1, 0, 0, 0, 0⟩ := by
  decide

/-- C3, amended. A pod that reads scheduled and not initialized adds nothing to
the containers-not-ready counter, and adds to the uninitialized counter one
when it reads not ready and nothing when it reads ready. -/
theorem uninitialized_pod_counted_once (podInfo : PodInfo) (pod : Pod)
    (hsched : (readConditions pod.Status.Conditions).podScheduled = true)
    (hinit : (readConditions pod.Status.Conditions).podInitialized = false) :
    (classifyPod podInfo pod).pod_uninitialized_count
      = podInfo.pod_uninitialized_count
        + (if (readConditions pod.Status.Conditions).podReady = true then 0 else 1) ∧
    (classifyPod podInfo pod).pod_containers_not_ready_count
      = podInfo.pod_containers_not_ready_count := by
  unfold classifyPod countPhase
  simp only [hsched, hinit]
  split_ifs <;> simp_all

theorem uninitialized_pod_counted_once_witness :
    ((classifyPod PodInfo.zero initializingPod).pod_uninitialized_count = 1 ∧
      (classifyPod PodInfo.zero initializingPod).pod_containers_not_ready_count = 0) ∧
    ((classifyPod PodInfo.zero readyUninitializedPod).pod_uninitialized_count = 0 ∧
      (classifyPod PodInfo.zero readyUninitializedPod).pod_containers_not_ready_count = 0) :=
  ⟨uninitialized_pod_counted_once PodInfo.zero initializingPod (by decide) (by decide),
    uninitialized_pod_counted_once PodInfo.zero readyUninitializedPod (by decide)
      (by decide)⟩

/-- C4. From zero counters, after the pod lists of any sequence of fetched
namespaces have been counted, the total counter is the number of pods in those
lists, whatever the pods are. -/
theorem total_is_number_of_pods (namespaces : List (List Pod)) :
    (countNamespaces PodInfo.zero (namespaces.map Except.ok)).pod_total_count
      = (namespaces.map List.length).sum := by
  rw [countNamespaces_ok_total]
  simp [PodInfo.zero]

/-- C5. The final counters do not depend on the order of the namespaces nor on
the order of the pods inside a namespace: if `shuffled` holds, namespace by
namespace, the pods of `results` in some other order, and `reordered` is
`shuffled` with its namespaces in some other order, the loop ends with the same
eight counters on `results` and on `reordered`. -/
theorem aggregation_order_independent (podInfo : PodInfo)
    (results shuffled reordered : List PodListResult)
    (hpods : List.Forall₂ PodsPermuted results shuffled)
    (hns : shuffled.Perm reordered) :
    countNamespaces podInfo results = countNamespaces podInfo reordered := by
  rw [countNamespaces_permuted podInfo hpods]
  unfold countNamespaces
  exact hns.foldl_eq' (fun x _ y _ z => countNamespace_right_comm z x y) podInfo

theorem aggregation_order_independent_witness :
    countNamespaces PodInfo.zero
        [Except.ok [healthyPod, unschedulablePod], Except.error "timeout",
          Except.ok [crashingPod, initializingPod]]
      = countNamespaces PodInfo.zero
        [Except.ok [initializingPod, crashingPod], Except.ok [unschedulablePod, healthyPod],
          Except.error "timeout"] :=
  aggregation_order_independent PodInfo.zero _
    [Except.ok [unschedulablePod, healthyPod], Except.error "timeout",
      Except.ok [initializingPod, crashingPod]] _
    (List.Forall₂.cons (PodsPermuted.ok (List.Perm.swap _ _ []))
      (List.Forall₂.cons (PodsPermuted.error "timeout")
        (List.Forall₂.cons (PodsPermuted.ok (List.Perm.swap _ _ [])) List.Forall₂.nil)))
    ((List.Perm.cons _ (List.Perm.swap _ _ [])).trans (List.Perm.swap _ _ _))

/-- C6. A namespace whose list call failed changes none of the eight counters
and does not stop the loop: the final counters are those obtained from the same
sequence of answers with the failed ones removed. -/
theorem failed_namespaces_are_skipped (podInfo : PodInfo)
    (results : List PodListResult) :
    countNamespaces podInfo results
      = countNamespaces podInfo (results.filter fetched) := by
  induction results generalizing podInfo with
  | nil => rfl
  | cons r rest ih =>
    cases r with
    | error e =>
      have step : countNamespaces podInfo (Except.error e :: rest)
          = countNamespaces podInfo rest := rfl
      rw [step, ih]
      simp [fetched]
    | ok items =>
      have step : ∀ l : List PodListResult, countNamespaces podInfo (Except.ok items :: l)
          = countNamespaces (countPodList podInfo items) l := fun _ => rfl
      have keep : (Except.ok items :: rest).filter fetched
          = Except.ok items :: rest.filter fetched := by
        simp [fetched]
      rw [keep, step, step, ih]

/-- C8. For a pod that reads not ready: with phase `Running`, the running and
running-not-ready counters grow by one and pending is unchanged; with phase
`Pending`, pending grows by one and the other two are unchanged; with any other
phase none of the three changes. -/
theorem phase_branch_of_not_ready_pod (podInfo : PodInfo) (pod : Pod)
    (hready : (readConditions pod.Status.Conditions).podReady = false) :
    (pod.Status.Phase = PodRunning →
      (classifyPod podInfo pod).pod_running_count = podInfo.pod_running_count + 1 ∧
      (classifyPod podInfo pod).pod_running_not_ready_count
        = podInfo.pod_running_not_ready_count + 1 ∧
      (classifyPod podInfo pod).pod_pending_count = podInfo.pod_pending_count) ∧
    (pod.Status.Phase = PodPending →
      (classifyPod podInfo pod).pod_pending_count = podInfo.pod_pending_count + 1 ∧
      (classifyPod podInfo pod).pod_running_count = podInfo.pod_running_count ∧
      (classifyPod podInfo pod).pod_running_not_ready_count
        = podInfo.pod_running_not_ready_count) ∧
    (pod.Status.Phase ≠ PodRunning → pod.Status.Phase ≠ PodPending →
      (classifyPod podInfo pod).pod_pending_count = podInfo.pod_pending_count ∧
      (classifyPod podInfo pod).pod_running_count = podInfo.pod_running_count ∧
      (classifyPod podInfo pod).pod_running_not_ready_count
        = podInfo.pod_running_not_ready_count) := by
  have distinct : PodPending ≠ PodRunning := by decide
  unfold classifyPod countPhase
  simp only [hready]
  refine ⟨fun h => ?_, fun h => ?_, fun h1 h2 => ?_⟩
  · split_ifs <;> simp_all
  · rw [h]
    split_ifs <;> simp_all
  · split_ifs <;> simp_all

theorem phase_branch_of_not_ready_pod_witness :
    ((classifyPod PodInfo.zero crashingPod).pod_running_count = 1 ∧
      (classifyPod PodInfo.zero crashingPod).pod_running_not_ready_count = 1 ∧
      (classifyPod PodInfo.zero crashingPod).pod_pending_count = 0) ∧
    ((classifyPod PodInfo.zero unschedulablePod).pod_pending_count = 1 ∧
      (classifyPod PodInfo.zero unschedulablePod).pod_running_count = 0 ∧
      (classifyPod PodInfo.zero unschedulablePod).pod_running_not_ready_count = 0) :=
  ⟨(phase_branch_of_not_ready_pod PodInfo.zero crashingPod (by decide)).1 (by decide),
    (phase_branch_of_not_ready_pod PodInfo.zero unschedulablePod (by decide)).2.1
      (by decide)⟩

/-- C7. Counting the pod list of one namespace is the fold of the classifier of
the specification: the total grows by the length of the list, and each of the
seven other counters grows by the number of pods of the list whose
classification contains its category. -/
theorem countPodList_is_fold_of_classifier (podInfo : PodInfo) (items : List Pod) :
    countPodList podInfo items =
      { pod_total_count := podInfo.pod_total_count + items.length
        pod_pending_count :=
          podInfo.pod_pending_count + tagCount Spec.Category.pending items
        pod_running_count :=
          podInfo.pod_running_count + tagCount Spec.Category.running items
        pod_ready_count := podInfo.pod_ready_count + tagCount Spec.Category.ready items
        pod_running_not_ready_count :=
          podInfo.pod_running_not_ready_count
            + tagCount Spec.Category.running_not_ready items
        pod_unscheduled_count :=
          podInfo.pod_unscheduled_count + tagCount Spec.Category.unscheduled items
        pod_uninitialized_count :=
          podInfo.pod_uninitialized_count + tagCount Spec.Category.uninitialized items
        pod_containers_not_ready_count :=
          podInfo.pod_containers_not_ready_count
            + tagCount Spec.Category.containers_not_ready items } := by
  unfold countPodList
  rw [classifyPods_eq_tags]

/-- C9. For a pod that reads not ready, whatever its phase: the unscheduled
counter grows by one exactly when scheduled is false; the uninitialized counter
exactly when scheduled is true and initialized is false; the
containers-not-ready counter exactly when scheduled and initialized are true
and containersReady is false; otherwise each is unchanged, so the three
together grow by at most one; and a `Pending` pod with all three true adds one
to pending and nothing else. -/
theorem blocking_condition_first_match (podInfo : PodInfo) (pod : Pod)
    (hready : (readConditions pod.Status.Conditions).podReady = false) :
    (classifyPod podInfo pod).pod_unscheduled_count
      = podInfo.pod_unscheduled_count
        + (if (readConditions pod.Status.Conditions).podScheduled = false then 1 else 0) ∧
    (classifyPod podInfo pod).pod_uninitialized_count
      = podInfo.pod_uninitialized_count
        + (if (readConditions pod.Status.Conditions).podScheduled = true ∧
              (readConditions pod.Status.Conditions).podInitialized = false
            then 1 else 0) ∧
    (classifyPod podInfo pod).pod_containers_not_ready_count
      = podInfo.pod_containers_not_ready_count
        + (if (readConditions pod.Status.Conditions).podScheduled = true ∧
              (readConditions pod.Status.Conditions).podInitialized = true ∧
              (readConditions pod.Status.Conditions).containersReady = false
            then 1 else 0) ∧
    (classifyPod podInfo pod).pod_unscheduled_count
        + (classifyPod podInfo pod).pod_uninitialized_count
        + (classifyPod podInfo pod).pod_containers_not_ready_count
      ≤ podInfo.pod_unscheduled_count + podInfo.pod_uninitialized_count
        + podInfo.pod_containers_not_ready_count + 1 ∧
    ((readConditions pod.Status.Conditions).podScheduled = true →
      (readConditions pod.Status.Conditions).podInitialized = true →
      (readConditions pod.Status.Conditions).containersReady = true →
      pod.Status.Phase = PodPending →
      classifyPod podInfo pod
        = { podInfo with pod_pending_count := podInfo.pod_pending_count + 1 }) := by
  have distinct : PodPending ≠ PodRunning := by decide
  cases podInfo
  unfold classifyPod countPhase
  revert hready
  generalize readConditions pod.Status.Conditions = v
  rcases v with ⟨_ | _, _ | _, _ | _, _ | _⟩ <;>
    by_cases h1 : pod.Status.Phase = PodRunning <;>
    by_cases h2 : pod.Status.Phase = PodPending <;>
    (simp_all; try omega)

theorem blocking_condition_first_match_witness :
    classifyPod PodInfo.zero almostReadyPod = ⟨0, 1, 0, 0, 0, 0, 0, 0⟩ :=
  (blocking_condition_first_match PodInfo.zero almostReadyPod (by decide)).2.2.2.2
    (by decide) (by decide) (by decide) (by decide)

/-- C10. Each of the four booleans read from a condition list is true exactly
when the list has an entry of its kind and the last such entry has status
`True`. -/
theorem condition_reads_last_entry (conditions : List PodCondition) :
    ((readConditions conditions).podReady = true ↔
      ∃ c, lastOfKind PodReady conditions = some c ∧ c.Status = ConditionTrue) ∧
    ((readConditions conditions).containersReady = true ↔
      ∃ c, lastOfKind ContainersReady conditions = some c ∧ c.Status = ConditionTrue) ∧
    ((readConditions conditions).podInitialized = true ↔
      ∃ c, lastOfKind PodInitialized conditions = some c ∧ c.Status = ConditionTrue) ∧
    ((readConditions conditions).podScheduled = true ↔
      ∃ c, lastOfKind PodScheduled conditions = some c ∧ c.Status = ConditionTrue) := by
  rw [readConditions_podReady, readConditions_containersReady,
    readConditions_podInitialized, readConditions_podScheduled]
  exact ⟨lastStatus_true_iff _ _, lastStatus_true_iff _ _, lastStatus_true_iff _ _,
    lastStatus_true_iff _ _⟩

/-! ## The run: counters and output of the outer loop -/

theorem processNamespaces_fst (listPods : String → PodListResult)
    (state : PodInfo × List String) (namespaces : List String) :
    (processNamespaces listPods state namespaces).1
      = countNamespaces state.1 (namespaces.map listPods) := by
  induction namespaces generalizing state with
  | nil => rfl
  | cons ns rest ih =>
    have step : processNamespaces listPods state (ns :: rest)
        = processNamespaces listPods (processNamespace listPods state ns) rest := rfl
    have step2 : countNamespaces state.1 ((ns :: rest).map listPods)
        = countNamespaces (countNamespace state.1 (listPods ns)) (rest.map listPods) := rfl
    rw [step, step2, ih]
    unfold processNamespace countNamespace
    cases listPods ns <;> rfl

theorem fetchErrorLines_cons (listPods : String → PodListResult) (ns : String)
    (rest : List String) :
    fetchErrorLines listPods (ns :: rest)
      = (match listPods ns with
          | .error err => [listPodsFailed ns err]
          | .ok _ => []) ++ fetchErrorLines listPods rest := by
  unfold fetchErrorLines
  cases h : listPods ns <;> simp [List.filterMap_cons, h]

theorem processNamespaces_snd (listPods : String → PodListResult)
    (state : PodInfo × List String) (namespaces : List String) :
    (processNamespaces listPods state namespaces).2
      = state.2 ++ fetchErrorLines listPods namespaces := by
  induction namespaces generalizing state with
  | nil => simp [processNamespaces, fetchErrorLines]
  | cons ns rest ih =>
    have step : processNamespaces listPods state (ns :: rest)
        = processNamespaces listPods (processNamespace listPods state ns) rest := rfl
    rw [step, ih, fetchErrorLines_cons]
    unfold processNamespace
    cases listPods ns <;> simp

theorem countNamespaces_all_failed (podInfo : PodInfo) (results : List PodListResult)
    (h : ∀ r ∈ results, fetched r = false) : countNamespaces podInfo results = podInfo := by
  induction results generalizing podInfo with
  | nil => rfl
  | cons r rest ih =>
    have hr : fetched r = false := h r (List.mem_cons_self r rest)
    have hrest : ∀ x ∈ rest, fetched x = false := fun x hx => h x (List.mem_cons_of_mem r hx)
    cases r with
    | error e => exact ih podInfo hrest
    | ok items => simp [fetched] at hr

theorem main_of_resolved (namespace_ : String) (env : Cluster) (namespaces : List String)
    (h : resolveNamespaces namespace_ env = Except.ok namespaces) :
    main namespace_ env =
      ⟨fetchErrorLines env.listPods namespaces
          ++ output (countNamespaces PodInfo.zero (namespaces.map env.listPods)), 0⟩ := by
  unfold main
  simp only [h, processNamespaces_fst, processNamespaces_snd, List.nil_append]

theorem main_of_unresolved (namespace_ : String) (env : Cluster) (line : String)
    (h : resolveNamespaces namespace_ env = Except.error line) :
    main namespace_ env = ⟨[line], 1⟩ := by
  unfold main
  simp only [h]

theorem output_length (pi : PodInfo) : (output pi).length = 8 := rfl

theorem listPodsFailed_head (ns err : String) :
    (listPodsFailed ns err).data.head? = some 'l' := rfl

theorem output_head (pi : PodInfo) (chunk : String) (h : chunk ∈ output pi) :
    chunk.data.head? = some 'p' := by
  simp only [output, List.mem_cons, List.mem_singleton, List.not_mem_nil, or_false] at h
  rcases h with h | h | h | h | h | h | h | h <;> (subst h; rfl)

theorem fetchErrorLines_head (listPods : String → PodListResult) (namespaces : List String)
    (chunk : String) (h : chunk ∈ fetchErrorLines listPods namespaces) :
    chunk.data.head? = some 'l' := by
  unfold fetchErrorLines at h
  rw [List.mem_filterMap] at h
  obtain ⟨ns, _, hns⟩ := h
  cases hl : listPods ns with
  | error err =>
    rw [hl] at hns
    simp only [Option.some.injEq] at hns
    rw [← hns]
    exact listPodsFailed_head ns err
  | ok items =>
    rw [hl] at hns
    simp at hns

theorem resolveNamespaces_error_head (namespace_ : String) (env : Cluster) (line : String)
    (h : resolveNamespaces namespace_ env = Except.error line) :
    line.data.head? ≠ some 'p' := by
  unfold resolveNamespaces at h
  split at h
  · cases h
    simp
  · split at h
    · cases h
      simp
    · split at h
      · split at h
        · cases h
          simp
        · cases h
      · split at h
        · cases h
          simp
        · cases h

/-! ## The claims on empty condition sets, on the report and on the run -/

/-- C11. A pod with no condition entry, whatever its phase, is counted without
failure: it adds one to the unscheduled counter, nothing to the ready,
uninitialized and containers-not-ready counters, and apart from that only what
the phase switch adds; with phase `Succeeded` it changes the unscheduled
counter only. -/
theorem empty_conditions_pod_is_unscheduled (podInfo : PodInfo) (pod : Pod)
    (hempty : pod.Status.Conditions = []) :
    classifyPod podInfo pod =
      { countPhase podInfo pod.Status.Phase with
        pod_unscheduled_count := podInfo.pod_unscheduled_count + 1 } ∧
    (classifyPod podInfo pod).pod_unscheduled_count = podInfo.pod_unscheduled_count + 1 ∧
    (classifyPod podInfo pod).pod_ready_count = podInfo.pod_ready_count ∧
    (classifyPod podInfo pod).pod_uninitialized_count = podInfo.pod_uninitialized_count ∧
    (classifyPod podInfo pod).pod_containers_not_ready_count
      = podInfo.pod_containers_not_ready_count ∧
    (pod.Status.Phase = PodSucceeded →
      classifyPod podInfo pod =
        { podInfo with pod_unscheduled_count := podInfo.pod_unscheduled_count + 1 }) := by
  have hs1 : PodSucceeded ≠ PodRunning := by decide
  have hs2 : PodSucceeded ≠ PodPending := by decide
  have key : classifyPod podInfo pod =
      { countPhase podInfo pod.Status.Phase with
        pod_unscheduled_count :=
          (countPhase podInfo pod.Status.Phase).pod_unscheduled_count + 1 } := by
    unfold classifyPod
    rw [hempty]
    rfl
  have hu : (countPhase podInfo pod.Status.Phase).pod_unscheduled_count
      = podInfo.pod_unscheduled_count := by
    unfold countPhase
    split_ifs <;> rfl
  have hr : (countPhase podInfo pod.Status.Phase).pod_ready_count
      = podInfo.pod_ready_count := by
    unfold countPhase
    split_ifs <;> rfl
  have hi : (countPhase podInfo pod.Status.Phase).pod_uninitialized_count
      = podInfo.pod_uninitialized_count := by
    unfold countPhase
    split_ifs <;> rfl
  have hc : (countPhase podInfo pod.Status.Phase).pod_containers_not_ready_count
      = podInfo.pod_containers_not_ready_count := by
    unfold countPhase
    split_ifs <;> rfl
  rw [key, hu]
  refine ⟨rfl, rfl, hr, hi, hc, fun h => ?_⟩
  rw [h]
  unfold countPhase
  rw [if_neg hs1, if_neg hs2]

theorem empty_conditions_pod_is_unscheduled_witness :
    classifyPod PodInfo.zero (mkPod PodSucceeded []) = ⟨0, 0, 0, 0, 0, 1, 0, 0⟩ :=
  (empty_conditions_pod_is_unscheduled PodInfo.zero (mkPod PodSucceeded []) rfl).2.2.2.2.2
    rfl

/-- C12, as stated, fails: for the counters `samplePodInfo` the report holds
the eight counts in the stated order, but each line starts with the name of the
counter field (`pod_total_count:12`), not with the bare category name
(`total:12`). -/
theorem report_lines_are_not_bare_category_names :
    output samplePodInfo =
      ["pod_total_count:12\n", "pod_pending_count:3\n", "pod_running_count:7\n",
       "pod_ready_count:5\n", "pod_running_not_ready_count:2\n",
       "pod_unscheduled_count:1\n", "pod_uninitialized_count:4\n",
       "pod_containers_not_ready_count:10\n"] ∧
    output samplePodInfo ≠
      Spec.categories.map
        (fun c => Spec.reportLine c (samplePodInfo.count c) ++ "\n") := by
  decide

/-- C12, amended. The report is exactly eight lines, one per category in the
order total, pending, running, ready, running_not_ready, unscheduled,
uninitialized, containers_not_ready; the line of a category is `pod_`, the
category name, `_count`, a colon, and the decimal value of its counter. -/
theorem report_is_eight_field_lines (pi : PodInfo) :
    output pi =
      Spec.categories.map
        (fun c => "pod_" ++ c.name ++ "_count:" ++ Nat.repr (pi.count c) ++ "\n") ∧
    (output pi).length = 8 :=
  ⟨rfl, rfl⟩

/-- C13. A run prints the report exactly when the namespaces were resolved.
When resolving fails, the run prints the one error line, exits with status 1
and prints nothing of a report.  When it succeeds, the run prints the lines of
the failed list calls and then, once, the report of the counters reached after
the last namespace, and exits with status 0; if every list call failed, the
report is that of the zero counters. -/
theorem report_iff_namespaces_resolved (namespace_ : String) (env : Cluster) :
    (∀ line, resolveNamespaces namespace_ env = Except.error line →
      main namespace_ env = ⟨[line], 1⟩ ∧ ∀ pi, line ∉ output pi) ∧
    (∀ namespaces, resolveNamespaces namespace_ env = Except.ok namespaces →
      main namespace_ env =
        ⟨fetchErrorLines env.listPods namespaces
          ++ output (countNamespaces PodInfo.zero (namespaces.map env.listPods)), 0⟩ ∧
      (∀ chunk ∈ fetchErrorLines env.listPods namespaces, ∀ pi, chunk ∉ output pi) ∧
      ((∀ ns ∈ namespaces, fetched (env.listPods ns) = false) →
        main namespace_ env =
          ⟨fetchErrorLines env.listPods namespaces ++ output PodInfo.zero, 0⟩)) ∧
    ((∃ pi, output pi <:+ (main namespace_ env).stdout) ↔
      ∃ namespaces, resolveNamespaces namespace_ env = Except.ok namespaces) := by
  refine ⟨fun line h => ⟨main_of_unresolved _ _ _ h, fun pi hin => ?_⟩,
    fun namespaces h => ⟨main_of_resolved _ _ _ h, fun chunk hc pi hin => ?_, fun hall => ?_⟩,
    ⟨fun hrep => ?_, fun hres => ?_⟩⟩
  · exact resolveNamespaces_error_head _ _ _ h (output_head pi line hin)
  · have h1 := fetchErrorLines_head _ _ _ hc
    have h2 := output_head pi chunk hin
    rw [h1] at h2
    exact absurd h2 (by decide)
  · rw [main_of_resolved _ _ _ h, countNamespaces_all_failed]
    intro r hr
    rw [List.mem_map] at hr
    obtain ⟨ns, hns, rfl⟩ := hr
    exact hall ns hns
  · cases hr : resolveNamespaces namespace_ env with
    | ok namespaces => exact ⟨namespaces, rfl⟩
    | error line =>
      obtain ⟨pi, hpi⟩ := hrep
      rw [main_of_unresolved _ _ _ hr] at hpi
      have hlen := hpi.length_le
      rw [output_length] at hlen
      simp at hlen
  · obtain ⟨namespaces, h⟩ := hres
    exact ⟨_, by rw [main_of_resolved _ _ _ h]; exact List.suffix_append _ _⟩

theorem report_iff_namespaces_resolved_witness :
    main "" sampleCluster =
      ⟨["list pods in namespace kube-system failed, err: timeout\n",
        "pod_total_count:3\n", "pod_pending_count:2\n", "pod_running_count:1\n",
        "pod_ready_count:1\n", "pod_running_not_ready_count:0\n",
        "pod_unscheduled_count:2\n", "pod_uninitialized_count:0\n",
        "pod_containers_not_ready_count:0\n"], 0⟩ ∧
    main "nope" sampleCluster = ⟨["get namespace nope failed, err: not found\n"], 1⟩ :=
  ⟨((report_iff_namespaces_resolved "" sampleCluster).2.1 ["default", "kube-system"] rfl).1,
    ((report_iff_namespaces_resolved "nope" sampleCluster).1
      "get namespace nope failed, err: not found\n" rfl).1⟩

/-! ## Invariants of the counters -/

/-- A property of the counters that counting one pod list preserves holds
after the whole loop if it holds before. -/
theorem countNamespaces_invariant (P : PodInfo → Prop)
    (hlist : ∀ p items, P p → P (countPodList p items))
    (podInfo : PodInfo) (results : List PodListResult) (h : P podInfo) :
    P (countNamespaces podInfo results) := by
  induction results generalizing podInfo with
  | nil => exact h
  | cons r rest ih =>
    have step : countNamespaces podInfo (r :: rest)
        = countNamespaces (countNamespace podInfo r) rest := rfl
    rw [step]
    apply ih
    cases r with
    | error e => exact h
    | ok items => exact hlist podInfo items h

/-- A property of the counters that counting one pod preserves, and that does
not look at the total, is preserved by counting a pod list. -/
theorem countPodList_invariant (P : PodInfo → Prop)
    (hpod : ∀ p pod, P p → P (classifyPod p pod))
    (htotal : ∀ p t, P p → P { p with pod_total_count := t })
    (podInfo : PodInfo) (items : List Pod) (h : P podInfo) :
    P (countPodList podInfo items) := by
  have loop : ∀ (l : List Pod) (q : PodInfo), P q → P (classifyPods q l) := by
    intro l
    induction l with
    | nil => exact fun q hq => hq
    | cons pod rest ih => exact fun q hq => ih (classifyPod q pod) (hpod q pod hq)
  exact loop items _ (htotal podInfo _ h)

/-- A quantity that one pod raises by at most one is raised by at most the
length of the list by the pod loop. -/
theorem classifyPods_measure (m : PodInfo → Nat)
    (hstep : ∀ p pod, m (classifyPod p pod) ≤ m p + 1) (q : PodInfo) (items : List Pod) :
    m (classifyPods q items) ≤ m q + items.length := by
  induction items generalizing q with
  | nil => exact Nat.le_refl _
  | cons pod rest ih =>
    have step : classifyPods q (pod :: rest) = classifyPods (classifyPod q pod) rest := rfl
    have h1 := ih (classifyPod q pod)
    have h2 := hstep q pod
    rw [step, List.length_cons]
    omega

/-- A quantity that one pod raises by at most one, and that does not look at
the total, stays at most the total through the whole loop. -/
theorem countNamespaces_measure_le_total (m : PodInfo → Nat)
    (hstep : ∀ p pod, m (classifyPod p pod) ≤ m p + 1)
    (htotal : ∀ (p : PodInfo) (t : Nat), m { p with pod_total_count := t } = m p)
    (podInfo : PodInfo) (results : List PodListResult)
    (h : m podInfo ≤ podInfo.pod_total_count) :
    m (countNamespaces podInfo results)
      ≤ (countNamespaces podInfo results).pod_total_count := by
  refine countNamespaces_invariant (fun p => m p ≤ p.pod_total_count) ?_ podInfo results h
  intro p items hp
  have h1 : m (countPodList p items) ≤ m p + items.length := by
    have hloop := classifyPods_measure m hstep
      { p with pod_total_count := p.pod_total_count + items.length } items
    rw [htotal p (p.pod_total_count + items.length)] at hloop
    exact hloop
  have h2 := countPodList_total p items
  have h3 : m p ≤ p.pod_total_count := hp
  show m (countPodList p items) ≤ (countPodList p items).pod_total_count
  omega

/-- What one pod does to the running, ready and running-not-ready counters. -/
theorem classifyPod_running (podInfo : PodInfo) (pod : Pod) :
    (classifyPod podInfo pod).pod_running_count + podInfo.pod_ready_count
        + podInfo.pod_running_not_ready_count
      = podInfo.pod_running_count + (classifyPod podInfo pod).pod_ready_count
        + (classifyPod podInfo pod).pod_running_not_ready_count ∧
    podInfo.pod_running_count ≤ (classifyPod podInfo pod).pod_running_count ∧
    podInfo.pod_ready_count ≤ (classifyPod podInfo pod).pod_ready_count ∧
    podInfo.pod_running_not_ready_count ≤ (classifyPod podInfo pod).pod_running_not_ready_count ∧
    (classifyPod podInfo pod).pod_ready_count + (classifyPod podInfo pod).pod_running_not_ready_count
      ≤ podInfo.pod_ready_count + podInfo.pod_running_not_ready_count + 1 := by
  cases podInfo
  unfold classifyPod countPhase
  simp only []
  split_ifs <;> simp <;> omega

/-- What one pod does to the ready, unscheduled, uninitialized and
containers-not-ready counters. -/
theorem classifyPod_blocking (podInfo : PodInfo) (pod : Pod) :
    podInfo.pod_ready_count ≤ (classifyPod podInfo pod).pod_ready_count ∧
    podInfo.pod_unscheduled_count ≤ (classifyPod podInfo pod).pod_unscheduled_count ∧
    podInfo.pod_uninitialized_count ≤ (classifyPod podInfo pod).pod_uninitialized_count ∧
    podInfo.pod_containers_not_ready_count ≤ (classifyPod podInfo pod).pod_containers_not_ready_count ∧
    (classifyPod podInfo pod).pod_ready_count + (classifyPod podInfo pod).pod_unscheduled_count + (classifyPod podInfo pod).pod_uninitialized_count
        + (classifyPod podInfo pod).pod_containers_not_ready_count
      ≤ podInfo.pod_ready_count + podInfo.pod_unscheduled_count
        + podInfo.pod_uninitialized_count + podInfo.pod_containers_not_ready_count + 1 := by
  cases podInfo
  unfold classifyPod countPhase
  simp only []
  split_ifs <;> simp <;> omega

/-- What one pod does to the pending and running counters. -/
theorem classifyPod_pending_running (podInfo : PodInfo) (pod : Pod) :
    podInfo.pod_pending_count ≤ (classifyPod podInfo pod).pod_pending_count ∧
    podInfo.pod_running_count ≤ (classifyPod podInfo pod).pod_running_count ∧
    (classifyPod podInfo pod).pod_pending_count + (classifyPod podInfo pod).pod_running_count
      ≤ podInfo.pod_pending_count + podInfo.pod_running_count + 1 := by
  cases podInfo
  unfold classifyPod countPhase
  simp only []
  split_ifs <;> simp <;> omega

/-! ## The claims on the invariants and on additivity -/

/-- C14. From zero counters, after any sequence of namespace answers, the
running counter is the sum of the ready and the running-not-ready counters;
pod by pod, the running counter grows by what the ready and the
running-not-ready counters grow together, which is at most one. -/
theorem running_is_ready_plus_running_not_ready (results : List PodListResult) :
    (countNamespaces PodInfo.zero results).pod_running_count = (countNamespaces PodInfo.zero results).pod_ready_count + (countNamespaces PodInfo.zero results).pod_running_not_ready_count ∧
    ∀ (podInfo : PodInfo) (pod : Pod),
      (classifyPod podInfo pod).pod_running_count + podInfo.pod_ready_count
          + podInfo.pod_running_not_ready_count
        = podInfo.pod_running_count + (classifyPod podInfo pod).pod_ready_count
          + (classifyPod podInfo pod).pod_running_not_ready_count ∧
      podInfo.pod_running_count ≤ (classifyPod podInfo pod).pod_running_count ∧
      podInfo.pod_ready_count ≤ (classifyPod podInfo pod).pod_ready_count ∧
      podInfo.pod_running_not_ready_count ≤ (classifyPod podInfo pod).pod_running_not_ready_count ∧
      (classifyPod podInfo pod).pod_ready_count + (classifyPod podInfo pod).pod_running_not_ready_count
        ≤ podInfo.pod_ready_count + podInfo.pod_running_not_ready_count + 1 := by
  refine ⟨?_, classifyPod_running⟩
  have hpod : ∀ (p : PodInfo) (pod : Pod),
      p.pod_running_count = p.pod_ready_count + p.pod_running_not_ready_count →
      (classifyPod p pod).pod_running_count
        = (classifyPod p pod).pod_ready_count
          + (classifyPod p pod).pod_running_not_ready_count := by
    intro p pod hp
    have h := (classifyPod_running p pod).1
    omega
  exact countNamespaces_invariant
    (fun p => p.pod_running_count = p.pod_ready_count + p.pod_running_not_ready_count)
    (fun p items hp =>
      countPodList_invariant
        (fun q => q.pod_running_count = q.pod_ready_count + q.pod_running_not_ready_count)
        hpod (fun _ _ h => h) p items hp)
    PodInfo.zero results rfl

/-- C15. From zero counters, after any sequence of namespace answers, the
ready, unscheduled, uninitialized and containers-not-ready counters together
are at most the total; pod by pod, none of the four goes down and their sum
grows by at most one. -/
theorem blocking_counters_at_most_total (results : List PodListResult) :
    (countNamespaces PodInfo.zero results).pod_ready_count + (countNamespaces PodInfo.zero results).pod_unscheduled_count + (countNamespaces PodInfo.zero results).pod_uninitialized_count
        + (countNamespaces PodInfo.zero results).pod_containers_not_ready_count
      ≤ (countNamespaces PodInfo.zero results).pod_total_count ∧
    ∀ (podInfo : PodInfo) (pod : Pod),
      podInfo.pod_ready_count ≤ (classifyPod podInfo pod).pod_ready_count ∧
      podInfo.pod_unscheduled_count ≤ (classifyPod podInfo pod).pod_unscheduled_count ∧
      podInfo.pod_uninitialized_count ≤ (classifyPod podInfo pod).pod_uninitialized_count ∧
      podInfo.pod_containers_not_ready_count ≤ (classifyPod podInfo pod).pod_containers_not_ready_count ∧
      (classifyPod podInfo pod).pod_ready_count + (classifyPod podInfo pod).pod_unscheduled_count + (classifyPod podInfo pod).pod_uninitialized_count
          + (classifyPod podInfo pod).pod_containers_not_ready_count
        ≤ podInfo.pod_ready_count + podInfo.pod_unscheduled_count
          + podInfo.pod_uninitialized_count + podInfo.pod_containers_not_ready_count
          + 1 := by
  refine ⟨?_, classifyPod_blocking⟩
  exact countNamespaces_measure_le_total
    (fun p => p.pod_ready_count + p.pod_unscheduled_count + p.pod_uninitialized_count
      + p.pod_containers_not_ready_count)
    (fun p pod => (classifyPod_blocking p pod).2.2.2.2) (fun _ _ => rfl)
    PodInfo.zero results (Nat.le_refl 0)

/-- C16. From zero counters, after any sequence of namespace answers, the
pending and running counters together are at most the total; pod by pod,
neither goes down and their sum grows by at most one, so no pod is counted both
pending and running. -/
theorem pending_plus_running_at_most_total (results : List PodListResult) :
    (countNamespaces PodInfo.zero results).pod_pending_count + (countNamespaces PodInfo.zero results).pod_running_count ≤ (countNamespaces PodInfo.zero results).pod_total_count ∧
    ∀ (podInfo : PodInfo) (pod : Pod),
      podInfo.pod_pending_count ≤ (classifyPod podInfo pod).pod_pending_count ∧
      podInfo.pod_running_count ≤ (classifyPod podInfo pod).pod_running_count ∧
      (classifyPod podInfo pod).pod_pending_count + (classifyPod podInfo pod).pod_running_count
        ≤ podInfo.pod_pending_count + podInfo.pod_running_count + 1 := by
  refine ⟨?_, classifyPod_pending_running⟩
  exact countNamespaces_measure_le_total
    (fun p => p.pod_pending_count + p.pod_running_count)
    (fun p pod => (classifyPod_pending_running p pod).2.2) (fun _ _ => rfl)
    PodInfo.zero results (Nat.le_refl 0)

/-- C17. Aggregation is additive: counting the answers `a` followed by `b`
from zero gives, counter by counter, the sum of what `a` gives from zero and
what `b` gives from zero; and counting `b` from any counters `t` adds to `t`
what `b` gives from zero. -/
theorem aggregation_is_additive (t : PodInfo) (a b : List PodListResult) :
    countNamespaces PodInfo.zero (a ++ b)
      = (countNamespaces PodInfo.zero a).add (countNamespaces PodInfo.zero b) ∧
    countNamespaces t b = t.add (countNamespaces PodInfo.zero b) := by
  refine ⟨?_, countNamespaces_add t b⟩
  have split : countNamespaces PodInfo.zero (a ++ b)
      = countNamespaces (countNamespaces PodInfo.zero a) b := by
    unfold countNamespaces
    rw [List.foldl_append]
  rw [split, countNamespaces_add]

end PodCount
